import Mathlib

/-!
Verification development for the retrieval-augmented chat responder
(`backend/app/embeddings.py` and its caller `backend/app/routes/chatbot.py`).

The Python code is shallowly embedded: dictionaries with optional keys become
structures of `Option` fields, the Chroma collection becomes an explicit list
of documents threaded through the ingestion functions, the external
embedding-search and language-model services become explicit `Except`-valued
inputs (they may raise), and code paths that can raise are modelled in an
`Except` monad whose errors mirror Python exceptions (`KeyError`,
`IndexError`, ...).  Distances are only ever carried around, never computed
with, so they are modelled as integers.
-/

/-- Python truthiness of an optional string: `None` and `""` are falsy. -/
def truthyS (o : Option String) : Bool :=
  match o with
  | some s => s ≠ ""
  | none => false

/-- Python exceptions that the modelled code can raise or receive from the
external services. -/
inductive PyErr where
  | keyError
  | indexError
  | typeError
  | attributeError
  | serviceError
  deriving DecidableEq, Repr

/-- A metadata mapping as stored on a document.  Absent keys are `none`;
`dict.get` on an absent key yields the default, direct subscripting raises. -/
structure Metadata where
  category : Option String := none
  subcategory : Option String := none
  user_id : Option String := none
  project_id : Option String := none
  project_category : Option String := none
  chunk_index : Option Nat := none
  total_chunks : Option Nat := none
  visitor_id : Option String := none
  timestamp : Option String := none
  deriving DecidableEq, Repr

/-- One indexed document of the corpus (id, text, metadata). -/
structure Doc where
  id : String
  text : String
  meta : Metadata
  deriving DecidableEq, Repr

/-- A project record (`projects_list` element); absent dictionary keys are
`none`. -/
structure ProjectRec where
  id : Option String := none
  title : Option String := none
  description : Option String := none
  details : Option String := none
  content : Option String := none
  content_html : Option String := none
  category : Option String := none
  deriving DecidableEq, Repr

/-- A profile record (`profile_data`); absent keys are `none`, a missing
`project_list` key is the empty list (the code reads it with default `[]`). -/
structure ProfileData where
  name : Option String := none
  location : Option String := none
  bio : Option String := none
  skills : Option String := none
  experience : Option String := none
  projects : Option String := none
  interests : Option String := none
  user_id : Option String := none
  project_list : List ProjectRec := []
  deriving DecidableEq, Repr

/-- One chat-history message as consumed by `generate_ai_response`. -/
structure ChatMsg where
  sender : Option String := none
  message : Option String := none
  response : Option String := none
  deriving DecidableEq, Repr

/-! ## Content chunker

`add_projects_to_vector_db` splits long content with
`for i in range(0, len(content_text), chunk_size - overlap)` where
`chunk_size = 1000` and `overlap = 100`; each window is
`content_text[i:i + chunk_size]` and empty windows are dropped. -/

/-- The chunking loop: windows of length 1000 starting at `i`, `i + 900`,
`i + 1800`, ... while the start is below the text length; empty windows are
skipped (`if chunk:`). -/
def chunkLoop (l : List Char) (i : Nat) : List (List Char) :=
  if i < l.length then
    let chunk := (l.drop i).take 1000
    if chunk.isEmpty then chunkLoop l (i + 900) else chunk :: chunkLoop l (i + 900)
  else []
termination_by l.length - i
decreasing_by all_goals omega

/-- Chunking as applied to a content text: texts of length at most 1000 are
kept whole (`if len(content_text) > 1000:`), longer ones go through the
sliding-window loop. -/
def chunkContent (l : List Char) : List (List Char) :=
  if 1000 < l.length then chunkLoop l 0 else [l]

/-! ## Ingestion pipeline

`add_profile_to_vector_db` and `add_projects_to_vector_db`, with the Chroma
collection modelled as an explicit list of documents: `collection.delete`
with a `where` filter removes the matching documents, `collection.add`
appends the new ones.  Parsing project content as Lexical JSON is done by the
external `json` library; it is abstracted as a parameter `jsonHtml` mapping
the raw content to `none` (parse failure) or `some htmlField` (the parsed
payload's optional `html` entry). -/

/-- `re.sub` of the pattern `<[^>]*>` by a single space: from each `<`, the
match extends to the first following `>`; without a closing `>` there is no
match at that position. -/
def stripTagsAux (l : List Char) : List Char :=
  match l with
  | [] => []
  | c :: rest =>
    if c = '<' then
      match rest.findIdx? (fun d => d == '>') with
      | some i => ' ' :: stripTagsAux (rest.drop (i + 1))
      | none => c :: stripTagsAux rest
    else c :: stripTagsAux rest
termination_by l.length
decreasing_by
  all_goals simp [List.length_drop]
  all_goals omega

/-- HTML tags replaced by spaces, for indexing. -/
def stripTags (s : String) : String :=
  String.mk (stripTagsAux s.data)

/-- Python rendering of an optional string inside an f-string: `None` prints
as `"None"`. -/
def pyStrOpt (o : Option String) : String :=
  match o with
  | some s => s
  | none => "None"

/-- Content extraction for one project: prefer a truthy `content_html`
(tag-stripped), else parse the content as Lexical JSON and use its truthy
`html` field (tag-stripped), else — including on parse failure — the raw
content; empty when `content` is absent or empty. -/
def contentText (jsonHtml : String → Option (Option String)) (project : ProjectRec) : String :=
  if truthyS project.content then
    if truthyS project.content_html then stripTags (project.content_html.getD "")
    else
      match jsonHtml (project.content.getD "") with
      | none => project.content.getD ""
      | some htmlField =>
        if truthyS htmlField then stripTags (htmlField.getD "")
        else project.content.getD ""
  else ""

/-- The documents emitted for a single project (title, description, details,
then content — chunked when longer than 1000 characters). -/
def projectDocs (jsonHtml : String → Option (Option String)) (user_id : Option String)
    (project : ProjectRec) : List Doc :=
  let project_id := project.id.getD ""
  let pmeta : Metadata :=
    { category := some "project", project_id := some project_id,
      project_category := some (project.category.getD ""), user_id := user_id }
  let content_text := contentText jsonHtml project
  (if truthyS project.title then
      [⟨"project_title_" ++ project_id ++ "_" ++ pyStrOpt user_id,
        project.title.getD "", { pmeta with subcategory := some "title" }⟩]
    else []) ++
  (if truthyS project.description then
      [⟨"project_description_" ++ project_id ++ "_" ++ pyStrOpt user_id,
        project.description.getD "", { pmeta with subcategory := some "description" }⟩]
    else []) ++
  (if truthyS project.details then
      [⟨"project_details_" ++ project_id ++ "_" ++ pyStrOpt user_id,
        project.details.getD "", { pmeta with subcategory := some "details" }⟩]
    else []) ++
  (if content_text ≠ "" then
      if 1000 < content_text.data.length then
        let chunks := chunkLoop content_text.data 0
        chunks.enum.map (fun p =>
          ⟨"project_content_" ++ project_id ++ "_" ++ toString p.1 ++ "_" ++ pyStrOpt user_id,
            String.mk p.2,
            { pmeta with
              subcategory := some "content"
              chunk_index := some p.1
              total_chunks := some chunks.length }⟩)
      else
        [⟨"project_content_" ++ project_id ++ "_" ++ pyStrOpt user_id,
          content_text, { pmeta with subcategory := some "content" }⟩]
    else [])

/-- All documents built by one `add_projects_to_vector_db` call: projects
without a truthy id are skipped. -/
def newProjectDocs (jsonHtml : String → Option (Option String)) (user_id : Option String)
    (projects_list : List ProjectRec) : List Doc :=
  (projects_list.filter (fun p => truthyS p.id)).flatMap (projectDocs jsonHtml user_id)

/-- `add_projects_to_vector_db`: an empty (or missing) project list returns
`True` with the corpus untouched; otherwise every existing document whose
metadata category equals `"project"` is deleted (for every owner), then the
new project documents are appended. -/
def add_projects_to_vector_db (jsonHtml : String → Option (Option String))
    (corpus : List Doc) (projects_list : List ProjectRec) (user_id : Option String) :
    Bool × List Doc :=
  if projects_list.isEmpty then (true, corpus)
  else
    let cleared := corpus.filter (fun d => d.meta.category != some "project")
    (true, cleared ++ newProjectDocs jsonHtml user_id projects_list)

/-- The profile documents emitted for the seven recognized profile fields
(present and truthy only), in source order. -/
def profileDocs (p : ProfileData) (uid : String) : List Doc :=
  (if truthyS p.name then
      [⟨"name_" ++ uid, p.name.getD "",
        { category := some "profile", subcategory := some "name", user_id := some uid }⟩]
    else []) ++
  (if truthyS p.location then
      [⟨"location_" ++ uid, p.location.getD "",
        { category := some "profile", subcategory := some "location", user_id := some uid }⟩]
    else []) ++
  (if truthyS p.bio then
      [⟨"bio_" ++ uid, p.bio.getD "",
        { category := some "profile", subcategory := some "bio", user_id := some uid }⟩]
    else []) ++
  (if truthyS p.skills then
      [⟨"skills_" ++ uid, p.skills.getD "",
        { category := some "profile", subcategory := some "skills", user_id := some uid }⟩]
    else []) ++
  (if truthyS p.experience then
      [⟨"experience_" ++ uid, p.experience.getD "",
        { category := some "profile", subcategory := some "experience", user_id := some uid }⟩]
    else []) ++
  (if truthyS p.projects then
      [⟨"projects_" ++ uid, p.projects.getD "",
        { category := some "profile", subcategory := some "projects", user_id := some uid }⟩]
    else []) ++
  (if truthyS p.interests then
      [⟨"interests_" ++ uid, p.interests.getD "",
        { category := some "profile", subcategory := some "interests", user_id := some uid }⟩]
    else [])

/-- `add_profile_to_vector_db`: resolve the effective owner (explicit
parameter, else the profile's `user_id`, else `"default"`), delete the
documents matching (category = profile AND user_id = owner), append the new
profile documents, then delegate to `add_projects_to_vector_db` with the
profile's `project_list`. -/
def add_profile_to_vector_db (jsonHtml : String → Option (Option String))
    (corpus : List Doc) (profile_data : ProfileData) (user_id : Option String) :
    Bool × List Doc :=
  let effective_user_id :=
    if truthyS user_id then user_id.getD ""
    else if truthyS profile_data.user_id then profile_data.user_id.getD ""
    else "default"
  let cleared := corpus.filter (fun d =>
    !(d.meta.category == some "profile" && d.meta.user_id == some effective_user_id))
  let corpus2 := cleared ++ profileDocs profile_data effective_user_id
  (true,
    (add_projects_to_vector_db jsonHtml corpus2 profile_data.project_list
      (some effective_user_id)).2)

/-! ## Retriever

`query_vector_db`.  The collection count, the main semantic query and the
conversation-scoped query are calls into the external search service and so
are modelled as `Except`-valued inputs (the service may raise).  A Chroma
query response is batched: one inner list per query text, of which only index
0 is consulted. -/

/-- A batched query response from the search service. -/
structure QueryResponse where
  documents : List (List String)
  metadatas : List (List Metadata)
  distances : List (List Int)
  deriving DecidableEq, Repr

/-- The flat result mapping built by `query_vector_db`. -/
structure ResultSet where
  documents : List String
  metadatas : List Metadata
  distances : List Int
  deriving DecidableEq, Repr

/-- The empty result set returned for an empty corpus and on any caught
exception. -/
def ResultSet.empty : ResultSet := ⟨[], [], []⟩

/-- The append loop over the conversation query's first result list.  Each
iteration mutates `results` in place: it appends the document, then the
metadata, then the distance; an `IndexError` on any of those three steps is
swallowed by the surrounding `except`, leaving the partially mutated
`results` in force. -/
def convLoop (conv : QueryResponse) : Nat → List String → QueryResponse → QueryResponse
  | _, [], res => res
  | i, doc :: rest, res =>
    match res.documents with
    | [] => res
    | d0 :: dtl =>
      let res1 : QueryResponse := ⟨(d0 ++ [doc]) :: dtl, res.metadatas, res.distances⟩
      match res1.metadatas with
      | [] => res1
      | m0 :: mtl =>
        match (conv.metadatas.headD []).get? i with
        | none => res1
        | some m =>
          let res2 : QueryResponse := ⟨res1.documents, (m0 ++ [m]) :: mtl, res1.distances⟩
          match res2.distances with
          | [] => res2
          | s0 :: stl =>
            match (conv.distances.headD []).get? i with
            | none => res2
            | some s =>
              convLoop conv (i + 1) rest ⟨res2.documents, res2.metadatas, (s0 ++ [s]) :: stl⟩

/-- The guarded conversation-history merge (the inner `try`): a failing
conversation query, or an empty first result list, leaves the main results
untouched. -/
def convAppend (res : QueryResponse) (convQ : Except PyErr QueryResponse) : QueryResponse :=
  match convQ with
  | .error _ => res
  | .ok conv =>
    match conv.documents with
    | [] => res
    | convDocs0 :: _ =>
      if convDocs0.length > 0 then convLoop conv 0 convDocs0 res else res

/-- The residual owner filter keeps a result iff its metadata category is
`"conversation"` or its metadata `user_id` equals the owner. -/
def keepMeta (m : Metadata) (user_id : String) : Bool :=
  m.category == some "conversation" || m.user_id == some user_id

/-- The owner-filter loop: iterate over the metadata list with its index,
appending `documents[i]`, the metadata and `distances[i]` for each kept
result; indexing past the end of `documents` or `distances` raises. -/
def filter_loop (documents : List String) (distances : List Int) (user_id : String) :
    Nat → List Metadata → Except PyErr (List String × List Metadata × List Int)
  | _, [] => .ok ([], [], [])
  | i, meta :: rest =>
    if keepMeta meta user_id then
      match documents.get? i with
      | none => .error .indexError
      | some d =>
        match distances.get? i with
        | none => .error .indexError
        | some s =>
          match filter_loop documents distances user_id (i + 1) rest with
          | .error e => .error e
          | .ok (ds, ms, ss) => .ok (d :: ds, meta :: ms, s :: ss)
    else filter_loop documents distances user_id (i + 1) rest

/-- The declarative counterpart of `filter_loop` on three aligned lists. -/
def filteredTriple (user_id : String) :
    List Metadata → List String → List Int → List String × List Metadata × List Int
  | m :: ms, d :: ds, s :: ss =>
    let r := filteredTriple user_id ms ds ss
    if keepMeta m user_id then (d :: r.1, m :: r.2.1, s :: r.2.2) else r
  | _, _, _ => ([], [], [])

/-- The tail of `query_vector_db`: extract index 0 of the three batched
lists (`results.get("documents", [[]])[0]` raises `IndexError` on an empty
outer list), then apply the residual owner filter when an owner is given. -/
def extractAndFilter (results : QueryResponse) (user_id : Option String) :
    Except PyErr ResultSet :=
  match results.documents with
  | [] => .error .indexError
  | documents :: _ =>
    match results.metadatas with
    | [] => .error .indexError
    | metadatas :: _ =>
      match results.distances with
      | [] => .error .indexError
      | distances :: _ =>
        if truthyS user_id then
          match filter_loop documents distances (user_id.getD "") 0 metadatas with
          | .error e => .error e
          | .ok (fd, fm, fs) => .ok ⟨fd, fm, fs⟩
        else .ok ⟨documents, metadatas, distances⟩

/-- The body of `query_vector_db`'s outer `try`: check the corpus count,
issue the main query, optionally merge the visitor's conversation results,
then extract and owner-filter. -/
def query_vector_db_core (countR : Except PyErr Nat)
    (mainQ : Except PyErr QueryResponse) (convQ : Except PyErr QueryResponse)
    (user_id : Option String) (visitor_id : Option String)
    (include_conversation : Bool) : Except PyErr ResultSet :=
  match countR with
  | .error e => .error e
  | .ok collection_count =>
    if collection_count = 0 then .ok ResultSet.empty
    else
      match mainQ with
      | .error e => .error e
      | .ok results =>
        extractAndFilter
          (if truthyS visitor_id && include_conversation then convAppend results convQ
           else results)
          user_id

/-- Index-alignment of a batched service response: the three outer lists
have the same shape, inner list by inner list. -/
def AlignedResp (r : QueryResponse) : Prop :=
  r.documents.map List.length = r.metadatas.map List.length ∧
  r.documents.map List.length = r.distances.map List.length

/-- Alignment of a response at index 0, the only index consulted. -/
def HeadAligned (r : QueryResponse) : Prop :=
  (r.documents = [] ↔ r.metadatas = []) ∧
  (r.documents = [] ↔ r.distances = []) ∧
  (r.documents.headD []).length = (r.metadatas.headD []).length ∧
  (r.documents.headD []).length = (r.distances.headD []).length

/-- `query_vector_db`: the whole procedure is wrapped in a `try` whose
handler converts any exception into the empty result set. -/
def query_vector_db (countR : Except PyErr Nat)
    (mainQ : Except PyErr QueryResponse) (convQ : Except PyErr QueryResponse)
    (user_id : Option String) (visitor_id : Option String)
    (include_conversation : Bool) : ResultSet :=
  match query_vector_db_core countR mainQ convQ user_id visitor_id include_conversation with
  | .ok rs => rs
  | .error _ => ResultSet.empty

/-! ## Context assembler and response generator

`generate_ai_response` subscripts its `search_results` argument dynamically
(`search_results["documents"][0]`, `search_results["metadatas"][0][i]`), so
that argument is embedded as a dynamic Python value with Python's
subscripting, truthiness, `len` and iteration semantics.  The language-model
call is an `Except`-valued input. -/

/-- A dynamic Python value (the fragment needed here: strings, ints, lists
and string-keyed dicts). -/
inductive PyVal where
  | pstr (s : String)
  | pint (n : Int)
  | plist (xs : List PyVal)
  | pdict (kvs : List (String × PyVal))

/-- Python list/str index resolution, including negative indices. -/
def pyIndex (len : Nat) (i : Int) : Option Nat :=
  if 0 ≤ i then (if i < len then some i.toNat else none)
  else (if 0 ≤ i + len then some (i + len).toNat else none)

/-- Python subscripting `v[k]`: lookup in a dict (a key that is not among
the dict's string keys raises `KeyError`), bounds-checked indexing into a
list or a string. -/
def getItem : PyVal → PyVal → Except PyErr PyVal
  | .pdict kvs, .pstr k =>
    match kvs.lookup k with
    | some v => .ok v
    | none => .error .keyError
  | .pdict _, _ => .error .keyError
  | .plist xs, .pint i =>
    match pyIndex xs.length i with
    | some n =>
      match xs.get? n with
      | some v => .ok v
      | none => .error .indexError
    | none => .error .indexError
  | .pstr s, .pint i =>
    match pyIndex s.data.length i with
    | some n =>
      match s.data.get? n with
      | some c => .ok (.pstr (String.mk [c]))
      | none => .error .indexError
    | none => .error .indexError
  | _, _ => .error .typeError

/-- Python `len`. -/
def pyLen : PyVal → Except PyErr Nat
  | .pstr s => .ok s.data.length
  | .plist xs => .ok xs.length
  | .pdict kvs => .ok kvs.length
  | .pint _ => .error .typeError

/-- Python truthiness. -/
def pyTruthy : PyVal → Bool
  | .pstr s => s ≠ ""
  | .plist xs => !xs.isEmpty
  | .pdict kvs => !kvs.isEmpty
  | .pint n => n ≠ 0

/-- Python iteration: a list yields its elements, a string its characters
(as one-character strings), a dict its keys. -/
def pyIter : PyVal → Except PyErr (List PyVal)
  | .plist xs => .ok xs
  | .pstr s => .ok (s.data.map (fun c => PyVal.pstr (String.mk [c])))
  | .pdict kvs => .ok (kvs.map (fun kv => PyVal.pstr kv.1))
  | .pint _ => .error .typeError

mutual

/-- Python `repr`. -/
def pyRepr : PyVal → String
  | .pstr s => "'" ++ s ++ "'"
  | .pint n => toString n
  | .plist xs => "[" ++ pyReprList xs ++ "]"
  | .pdict kvs => "\x7b" ++ pyReprPairs kvs ++ "\x7d"

def pyReprList : List PyVal → String
  | [] => ""
  | [x] => pyRepr x
  | x :: y :: xs => pyRepr x ++ ", " ++ pyReprList (y :: xs)

def pyReprPairs : List (String × PyVal) → String
  | [] => ""
  | [kv] => "'" ++ kv.1 ++ "': " ++ pyRepr kv.2
  | kv :: kw :: xs => "'" ++ kv.1 ++ "': " ++ pyRepr kv.2 ++ ", " ++ pyReprPairs (kw :: xs)

end

/-- Python `str` as interpolated by an f-string: a string stands for itself,
everything else for its `repr`-style rendering. -/
def pyStr : PyVal → String
  | .pstr s => s
  | v => pyRepr v

/-- The fixed placeholder used when no retrieval results are available. -/
def noInfoPlaceholder : String :=
  "No specific information available. Please provide a general response."

/-- The context accumulation loop
(`for i, doc in enumerate(search_results["documents"][0])`): each iteration
subscripts `search_results["metadatas"][0][i]["subcategory"]` and appends
`"<SUBCATEGORY>: <doc>"` plus a blank line; any lookup failure raises out of
`generate_ai_response` (this part of the function is outside its `try`). -/
def contextLoop (search_results : PyVal) :
    List PyVal → Nat → String → Except PyErr String
  | [], _, context => .ok context
  | doc :: rest, i, context =>
    match getItem search_results (.pstr "metadatas") with
    | .error e => .error e
    | .ok metas =>
      match getItem metas (.pint 0) with
      | .error e => .error e
      | .ok m0 =>
        match getItem m0 (.pint (Int.ofNat i)) with
        | .error e => .error e
        | .ok mi =>
          match getItem mi (.pstr "subcategory") with
          | .error e => .error e
          | .ok sub =>
            match sub with
            | .pstr s =>
              contextLoop search_results rest (i + 1)
                (context ++ s.toUpper ++ ": " ++ pyStr doc ++ "\n\n")
            | _ => .error .attributeError

/-- The relevant-context block of `generate_ai_response`: when
`search_results["documents"]` is truthy, non-empty, and its element 0 is
non-empty, render one line per element of index 0 via `contextLoop`; else
the fixed placeholder. -/
def buildContext (search_results : PyVal) : Except PyErr String :=
  match getItem search_results (.pstr "documents") with
  | .error e => .error e
  | .ok docs =>
    if pyTruthy docs then
      match pyLen docs with
      | .error e => .error e
      | .ok n =>
        if 0 < n then
          match getItem docs (.pint 0) with
          | .error e => .error e
          | .ok d0 =>
            match pyLen d0 with
            | .error e => .error e
            | .ok n0 =>
              if 0 < n0 then
                match pyIter d0 with
                | .error e => .error e
                | .ok items => contextLoop search_results items 0 ""
              else .ok noInfoPlaceholder
        else .ok noInfoPlaceholder
    else .ok noInfoPlaceholder

/-- A metadata record as the Python dict it stands for (absent fields are
absent keys). -/
def Metadata.toPy (m : Metadata) : PyVal :=
  .pdict (
    (match m.category with | some v => [("category", PyVal.pstr v)] | none => []) ++
    (match m.subcategory with | some v => [("subcategory", PyVal.pstr v)] | none => []) ++
    (match m.chunk_index with | some v => [("chunk_index", PyVal.pint (Int.ofNat v))] | none => []) ++
    (match m.total_chunks with | some v => [("total_chunks", PyVal.pint (Int.ofNat v))] | none => []) ++
    (match m.project_id with | some v => [("project_id", PyVal.pstr v)] | none => []) ++
    (match m.project_category with | some v => [("project_category", PyVal.pstr v)] | none => []) ++
    (match m.user_id with | some v => [("user_id", PyVal.pstr v)] | none => []) ++
    (match m.visitor_id with | some v => [("visitor_id", PyVal.pstr v)] | none => []) ++
    (match m.timestamp with | some v => [("timestamp", PyVal.pstr v)] | none => []))

/-- The value `query_vector_db` returns, as the Python dict it stands for:
three flat lists under the keys `documents`, `metadatas`, `distances`. -/
def ResultSet.toPy (rs : ResultSet) : PyVal :=
  .pdict
    [("documents", .plist (rs.documents.map PyVal.pstr)),
     ("metadatas", .plist (rs.metadatas.map Metadata.toPy)),
     ("distances", .plist (rs.distances.map PyVal.pint))]

/-- The keys of a Python dict value. -/
def pyKeys : PyVal → List String
  | .pdict kvs => kvs.map (fun kv => kv.1)
  | _ => []

/-- Python `str.strip`: leading and trailing whitespace removed. -/
def pyStrip (l : List Char) : List Char :=
  ((l.dropWhile Char.isWhitespace).reverse.dropWhile Char.isWhitespace).reverse

/-- `str.strip` on strings. -/
def strStrip (s : String) : String :=
  String.mk (pyStrip s.data)

/-- Python `str.split(sep)` with a non-empty separator: split at each
leftmost, non-overlapping occurrence of `sep`.  Structural recursion on a
fuel bound (each step consumes at least one character, so `l.length` fuel is
always enough; the fuel-exhausted case is unreachable). -/
def splitGo (sep : List Char) : Nat → List Char → List (List Char)
  | _, [] => [[]]
  | 0, l => [l]
  | fuel + 1, c :: rest =>
    if sep.isPrefixOf (c :: rest) then
      [] :: splitGo sep fuel ((c :: rest).drop sep.length)
    else
      match splitGo sep fuel rest with
      | [] => [[c]]
      | piece :: more => (c :: piece) :: more

/-- `str.split(sep)` on strings (an empty separator never occurs in the
modelled code; it maps the string to itself unsplit). -/
def strSplit (sep s : String) : List String :=
  match sep.data with
  | [] => [s]
  | _ :: _ => (splitGo sep.data s.data.length s.data).map String.mk

/-- Persona-name resolution: prefer the stripped `name` field when truthy;
else, when the bio contains `"I am "`, take
`bio.split('I am ')[1].split(' ')[0]` if that token is truthy and longer
than 2 characters; else the literal `"the person"`. -/
def resolveName (profile_data : Option ProfileData) : String :=
  match profile_data with
  | none => "the person"
  | some p =>
    let user_name :=
      if truthyS p.name && (strStrip (p.name.getD "") != "") then strStrip (p.name.getD "")
      else if truthyS p.bio then
        let bio := p.bio.getD ""
        let parts := strSplit "I am " bio
        if 1 < parts.length then
          let name_part := (strSplit " " (parts.getD 1 "")).headD ""
          if name_part != "" && 2 < name_part.length then name_part else ""
        else ""
      else ""
    if user_name = "" then "the person" else user_name

/-- The profile block: empty when `profile_data` is absent, else the seven
fields in fixed order, each `dict.get` defaulting to `"Not provided"`. -/
def profileContext (profile_data : Option ProfileData) : String :=
  match profile_data with
  | none => ""
  | some p =>
    "\nNAME: " ++ p.name.getD "Not provided" ++
    "\nLOCATION: " ++ p.location.getD "Not provided" ++
    "\nBIO: " ++ p.bio.getD "Not provided" ++
    "\nSKILLS: " ++ p.skills.getD "Not provided" ++
    "\nEXPERIENCE: " ++ p.experience.getD "Not provided" ++
    "\nPROJECTS: " ++ p.projects.getD "Not provided" ++
    "\nINTERESTS: " ++ p.interests.getD "Not provided" ++
    "\n        "

/-- The history block: absent or empty history contributes nothing, else a
header plus one line per turn (`Visitor:` for sender `user`, `You:`
otherwise). -/
def historyContext (chat_history : Option (List ChatMsg)) : String :=
  match chat_history with
  | none => ""
  | some msgs =>
    if 0 < msgs.length then
      "PREVIOUS CONVERSATION:\n" ++
        msgs.foldl
          (fun acc msg =>
            if msg.sender == some "user" then
              acc ++ "Visitor: " ++ msg.message.getD "" ++ "\n"
            else acc ++ "You: " ++ msg.response.getD "" ++ "\n")
          "" ++ "\n"
    else ""

/-- The system-prompt template up to the persona name. -/
def sysPromptPre : String :=
  "\nYou are NOT an AI assistant. You ARE "

/-- The template between the persona name and the profile block. -/
def sysPromptAfterName : String :=
  " whose profile information is provided below.\n\nWhen responding, you MUST:\n1. Speak in the FIRST PERSON (I, me, my) as if you ARE this person.\n2. ONLY use the exact information provided in the context sections below.\n3. DO NOT invent, add, or make up ANY details that aren't explicitly mentioned in the provided profile information.\n4. If you don't have specific information to answer a question, say \"I prefer not to discuss that topic\" rather than making up a response.\n5. Match the tone and style that would be natural for a professional with this background.\n6. Never break character or refer to yourself as an AI.\n7. Never apologize for \"not having information\" - instead, redirect to what you do know from the profile.\n8. STICK STRICTLY to the information provided - do not elaborate with invented details.\n9. Maintain consistency with previous responses in the conversation history.\n\nYOUR PROFILE INFORMATION:\n"

/-- The template between the history block and the relevant-context block. -/
def sysPromptBeforeContext : String :=
  "\n\nRELEVANT PROFILE SECTIONS THAT MATCH THIS QUERY:\n"

/-- The template after the relevant-context block. -/
def sysPromptPost : String :=
  "\n\nRemember: You ARE this person, but you can ONLY respond with information that is explicitly mentioned in the above sections.\nIf asked about something not covered in the profile information, politely redirect or state you prefer to focus on the topics listed.\n    "

/-- The assembled system prompt: relevant-context block (whose subscripting
may raise), persona name, profile block and history block interpolated into
the fixed instruction template. -/
def assembleSystemPrompt (search_results : PyVal) (profile_data : Option ProfileData)
    (chat_history : Option (List ChatMsg)) : Except PyErr String :=
  match buildContext search_results with
  | .error e => .error e
  | .ok context =>
    let user_name := resolveName profile_data
    .ok (sysPromptPre ++ (if user_name = "" then "the person" else user_name) ++
      sysPromptAfterName ++ profileContext profile_data ++ "\n\n" ++
      historyContext chat_history ++ sysPromptBeforeContext ++ context ++ sysPromptPost)

/-- The exception classes the language-model call can raise, by the openai
v1 class hierarchy: `apiError` is an `APIError` of no more specific modelled
class; `apiConnectionError` (`APIConnectionError`) and `rateLimitError`
(`RateLimitError`, via `APIStatusError`) are SUBCLASSES of `APIError`;
`otherError` is any exception outside the `APIError` tree. -/
inductive OpenAIErr where
  | apiError
  | apiConnectionError
  | rateLimitError
  | otherError
  deriving DecidableEq, Repr

/-- `isinstance(e, openai.APIError)`: true for every category in the
`APIError` tree, connection and rate-limit errors included. -/
def isAPIError : OpenAIErr → Bool
  | .apiError => true
  | .apiConnectionError => true
  | .rateLimitError => true
  | .otherError => false

/-- `isinstance(e, openai.APIConnectionError)`. -/
def isAPIConnectionError : OpenAIErr → Bool
  | .apiConnectionError => true
  | _ => false

/-- `isinstance(e, openai.RateLimitError)`. -/
def isRateLimitError : OpenAIErr → Bool
  | .rateLimitError => true
  | _ => false

/-- Apology for `openai.APIError`. -/
def apologyApiError : String :=
  "I'm sorry, I couldn't generate a response at the moment due to an API error. Please try again later."

/-- Apology for `openai.APIConnectionError`. -/
def apologyConnectionError : String :=
  "I'm sorry, I couldn't connect to the response service. Please check your internet connection and try again."

/-- Apology for `openai.RateLimitError`. -/
def apologyRateLimit : String :=
  "I'm sorry, the service is currently experiencing high demand. Please try again in a few moments."

/-- Apology for any other exception. -/
def apologyGeneric : String :=
  "I'm sorry, I couldn't generate a response at the moment. Please try again later."

/-- The generation `try`: a successful completion is returned verbatim; a
raised exception is dispatched to the FIRST matching `except` clause in
source order — `except openai.APIError`, then `except
openai.APIConnectionError`, then `except openai.RateLimitError`, then
`except Exception`.  Because connection and rate-limit errors are
`APIError` subclasses, the first clause catches them and the two dedicated
clauses after it are unreachable. -/
def responseOfOutcome : Except OpenAIErr String → String
  | .ok content => content
  | .error e =>
    if isAPIError e then apologyApiError
    else if isAPIConnectionError e then apologyConnectionError
    else if isRateLimitError e then apologyRateLimit
    else apologyGeneric

/-- `generate_ai_response`: assemble the system prompt (outside any `try`,
so a subscripting failure propagates), then call the language-model service
under the `try` that maps failures to apology strings. -/
def generate_ai_response (search_results : PyVal) (profile_data : Option ProfileData)
    (chat_history : Option (List ChatMsg)) (completion : Except OpenAIErr String) :
    Except PyErr String :=
  match assembleSystemPrompt search_results profile_data chat_history with
  | .error e => .error e
  | .ok _ => .ok (responseOfOutcome completion)

theorem chunkLoop_stop (l : List Char) (i : Nat) (h : ¬ i < l.length) :
    chunkLoop l i = [] := by
  rw [chunkLoop]
  simp [h]

theorem chunkLoop_step (l : List Char) (i : Nat) (h : i < l.length) :
    chunkLoop l i = (l.drop i).take 1000 :: chunkLoop l (i + 900) := by
  rw [chunkLoop]
  have hne : ¬ ((l.drop i).take 1000).isEmpty = true := by
    simp [List.isEmpty_iff, List.drop_eq_nil_iff]
    omega
  simp [h, hne]

/-- The chunk windows, described declaratively: starts `i, i + 900, ...`
strictly below the length, each giving the 1000-character window there. -/
theorem chunkLoop_windows (l : List Char) :
    ∀ n i, l.length - i ≤ 900 * n →
      chunkLoop l i =
        (List.range' i ((l.length - i + 899) / 900) 900).map
          (fun s => (l.drop s).take 1000) := by
  intro n
  induction n with
  | zero =>
    intro i h
    have hi : ¬ i < l.length := by omega
    have hz : (l.length - i + 899) / 900 = 0 := by omega
    rw [chunkLoop_stop l i hi, hz]
    simp
  | succ n ih =>
    intro i h
    by_cases hi : i < l.length
    · have hc : (l.length - i + 899) / 900 = (l.length - (i + 900) + 899) / 900 + 1 := by
        omega
      rw [chunkLoop_step l i hi, ih (i + 900) (by omega), hc, List.range'_succ]
      simp
    · have hz : (l.length - i + 899) / 900 = 0 := by omega
      rw [chunkLoop_stop l i hi, hz]
      simp

/-- Concatenating each chunk's first 900 characters reconstructs the suffix of
the text the loop was started on. -/
theorem chunkLoop_flatten (l : List Char) :
    ∀ n i, l.length - i ≤ 900 * n →
      ((chunkLoop l i).map (List.take 900)).flatten = l.drop i := by
  intro n
  induction n with
  | zero =>
    intro i h
    have hi : ¬ i < l.length := by omega
    rw [chunkLoop_stop l i hi]
    simp [List.drop_eq_nil_iff]
    omega
  | succ n ih =>
    intro i h
    by_cases hi : i < l.length
    · rw [chunkLoop_step l i hi]
      simp only [List.map_cons, List.flatten_cons, ih (i + 900) (by omega)]
      rw [List.take_take]
      simp
    · rw [chunkLoop_stop l i hi]
      simp [List.drop_eq_nil_iff]
      omega

/-- C5: for a text longer than 1000 characters, the chunks are exactly the
windows `text[i:i+1000]` for starts `i = 0, 900, 1800, ...` strictly below
the length (all non-empty); concatenating each chunk's first 900 characters
reconstructs the text; and each non-final pair of adjacent chunks shares
exactly 100 characters (the suffix of one is the 100-character prefix of the
next). -/
theorem chunking_windows_reconstruction (l : List Char) (h : 1000 < l.length) :
    chunkContent l =
        (List.range' 0 ((l.length + 899) / 900) 900).map (fun s => (l.drop s).take 1000)
    ∧ (∀ j < (l.length + 899) / 900, 900 * j < l.length ∧ (l.drop (900 * j)).take 1000 ≠ [])
    ∧ ((chunkContent l).map (List.take 900)).flatten = l
    ∧ ∀ j, (h2 : j + 2 < (chunkContent l).length) →
        ((chunkContent l).get ⟨j, by omega⟩).drop 900
          = ((chunkContent l).get ⟨j + 1, by omega⟩).take 100
        ∧ (((chunkContent l).get ⟨j, by omega⟩).drop 900).length = 100 := by
  have hcc : chunkContent l = chunkLoop l 0 := by
    simp [chunkContent, h]
  have hw : chunkLoop l 0 =
      (List.range' 0 ((l.length + 899) / 900) 900).map (fun s => (l.drop s).take 1000) := by
    have := chunkLoop_windows l l.length 0 (by omega)
    simpa using this
  have hlen : (chunkContent l).length = (l.length + 899) / 900 := by
    rw [hcc, hw]; simp
  refine ⟨hcc.trans hw, ?_, ?_, ?_⟩
  · intro j hj
    have hjl : 900 * j < l.length := by omega
    refine ⟨hjl, ?_⟩
    have : ((l.drop (900 * j)).take 1000).length = min 1000 (l.length - 900 * j) := by
      simp
    intro hnil
    rw [hnil] at this
    simp at this
    omega
  · rw [hcc]
    have := chunkLoop_flatten l l.length 0 (by omega)
    simpa using this
  · intro j h2
    have hj2 : j + 2 < (l.length + 899) / 900 := by omega
    have hget : ∀ (k : Nat) (hk : k < (chunkContent l).length),
        (chunkContent l).get ⟨k, hk⟩ = (l.drop (900 * k)).take 1000 := by
      intro k hk
      have hk2 : k < (l.length + 899) / 900 := by omega
      simp [hcc, hw, List.get_eq_getElem]
    have hL : 900 * j + 1000 ≤ l.length := by omega
    rw [hget j (by omega), hget (j + 1) (by omega)]
    constructor
    · rw [List.drop_take, List.drop_drop, List.take_take]
      have e1 : 900 * j + 900 = 900 * (j + 1) := by ring
      have e2 : (1000 : Nat) - 900 = 100 := by norm_num
      have e3 : min 100 1000 = 100 := by norm_num
      rw [e1, e2, e3]
    · rw [List.drop_take, List.drop_drop]
      simp
      omega

/-- Witness for C5 at a concrete 1001-character text. -/
theorem chunking_windows_reconstruction_witness :
    1000 < (List.replicate 1001 'a').length
    ∧ ((chunkContent (List.replicate 1001 'a')).map (List.take 900)).flatten
        = List.replicate 1001 'a' :=
  ⟨by rw [List.length_replicate]; omega,
    (chunking_windows_reconstruction (List.replicate 1001 'a')
      (by rw [List.length_replicate]; omega)).2.2.1⟩

theorem filteredTriple_eq_zip_filter (user_id : String) :
    ∀ (ms : List Metadata) (ds : List String) (ss : List Int),
      ms.length ≤ ds.length → ms.length ≤ ss.length →
      filteredTriple user_id ms ds ss =
        (((ms.zip (ds.zip ss)).filter (fun t => keepMeta t.1 user_id)).map (fun t => t.2.1),
         ((ms.zip (ds.zip ss)).filter (fun t => keepMeta t.1 user_id)).map (fun t => t.1),
         ((ms.zip (ds.zip ss)).filter (fun t => keepMeta t.1 user_id)).map (fun t => t.2.2)) := by
  intro ms
  induction ms with
  | nil => intro ds ss _ _; simp [filteredTriple]
  | cons m rest ih =>
    intro ds ss hd hs
    match ds, ss with
    | [], _ => simp at hd
    | _ :: _, [] => simp at hs
    | d :: ds', s :: ss' =>
      simp only [List.length_cons] at hd hs
      have := ih ds' ss' (by omega) (by omega)
      by_cases hk : keepMeta m user_id
      · simp [filteredTriple, hk, this]
      · simp [filteredTriple, hk, this]

theorem filter_loop_eq_filteredTriple (user_id : String) :
    ∀ (ms : List Metadata) (documents : List String) (distances : List Int) (i : Nat),
      i + ms.length ≤ documents.length → i + ms.length ≤ distances.length →
      filter_loop documents distances user_id i ms =
        .ok (filteredTriple user_id ms (documents.drop i) (distances.drop i)) := by
  intro ms
  induction ms with
  | nil =>
    intro documents distances i _ _
    simp [filter_loop, filteredTriple]
  | cons m rest ih =>
    intro documents distances i hd hs
    simp only [List.length_cons] at hd hs
    have hid : i < documents.length := by omega
    have his : i < distances.length := by omega
    have hd2 : documents.drop i = documents.get ⟨i, hid⟩ :: documents.drop (i + 1) :=
      List.drop_eq_getElem_cons hid
    have hs2 : distances.drop i = distances.get ⟨i, his⟩ :: distances.drop (i + 1) :=
      List.drop_eq_getElem_cons his
    have hdg : documents.get? i = some (documents.get ⟨i, hid⟩) := by
      simp [List.get?_eq_getElem?]
    have hsg : distances.get? i = some (distances.get ⟨i, his⟩) := by
      simp [List.get?_eq_getElem?]
    have hrec := ih documents distances (i + 1) (by omega) (by omega)
    rw [hd2, hs2]
    by_cases hk : keepMeta m user_id
    · simp only [filter_loop, hk, if_true, hdg, hsg, hrec, filteredTriple]
    · simp only [filter_loop, hk, if_false, hrec, filteredTriple, Bool.false_eq_true]

/-- C2: the residual owner filter keeps exactly the results whose metadata
category is `"conversation"` (regardless of their `user_id`) or whose
metadata `user_id` equals the owner, drops all others, and preserves
relative order and index-alignment across the three parallel lists: the
filtered lists are the projections of the order-preserving filter of the
zipped (metadata, document, distance) triples. -/
theorem owner_filter_keeps_conversation_and_owner
    (documents : List String) (metadatas : List Metadata) (distances : List Int)
    (user_id : String)
    (hd : documents.length = metadatas.length) (hs : distances.length = metadatas.length) :
    filter_loop documents distances user_id 0 metadatas =
      .ok
        (((metadatas.zip (documents.zip distances)).filter
            (fun t => keepMeta t.1 user_id)).map (fun t => t.2.1),
         ((metadatas.zip (documents.zip distances)).filter
            (fun t => keepMeta t.1 user_id)).map (fun t => t.1),
         ((metadatas.zip (documents.zip distances)).filter
            (fun t => keepMeta t.1 user_id)).map (fun t => t.2.2)) := by
  have h1 := filter_loop_eq_filteredTriple user_id metadatas documents distances 0
    (by omega) (by omega)
  have h2 := filteredTriple_eq_zip_filter user_id metadatas documents distances
    (by omega) (by omega)
  simpa [h2] using h1

/-- Witness for C2 at the spec's example: owner `u1`, a merged set holding a
`u2` document, a `u1` document and a conversation document without
`user_id`; exactly the latter two are kept, in order. -/
theorem owner_filter_keeps_conversation_and_owner_witness :
    filter_loop ["d2", "d1", "dc"] [2, 1, 5] "u1" 0
      [{ category := some "profile", subcategory := some "bio", user_id := some "u2" },
       { category := some "profile", subcategory := some "bio", user_id := some "u1" },
       { category := some "conversation", subcategory := some "exchange" }] =
      .ok (["d1", "dc"],
           [{ category := some "profile", subcategory := some "bio", user_id := some "u1" },
            { category := some "conversation", subcategory := some "exchange" }],
           [1, 5]) := by
  have := owner_filter_keeps_conversation_and_owner ["d2", "d1", "dc"]
    [{ category := some "profile", subcategory := some "bio", user_id := some "u2" },
     { category := some "profile", subcategory := some "bio", user_id := some "u1" },
     { category := some "conversation", subcategory := some "exchange" }]
    [2, 1, 5] "u1" (by rfl) (by rfl)
  simpa [keepMeta] using this

/-- C7: the whole retrieval procedure sits inside one `try` whose handler
returns the empty result set: whenever any stage errors — the corpus count,
the main query, or anything later including the owner filtering — the caller
gets the well-formed empty result set, and in every case the caller gets
either that empty set or the successfully computed result. -/
theorem query_vector_db_never_raises (countR : Except PyErr Nat)
    (mainQ : Except PyErr QueryResponse) (convQ : Except PyErr QueryResponse)
    (user_id : Option String) (visitor_id : Option String)
    (include_conversation : Bool) :
    (∀ e, query_vector_db_core countR mainQ convQ user_id visitor_id include_conversation
        = .error e →
      query_vector_db countR mainQ convQ user_id visitor_id include_conversation
        = ResultSet.empty)
    ∧ (query_vector_db countR mainQ convQ user_id visitor_id include_conversation
        = ResultSet.empty
      ∨ query_vector_db_core countR mainQ convQ user_id visitor_id include_conversation
        = .ok (query_vector_db countR mainQ convQ user_id visitor_id include_conversation))
    ∧ (∀ e, countR = .error e →
      query_vector_db countR mainQ convQ user_id visitor_id include_conversation
        = ResultSet.empty)
    ∧ (∀ e c, countR = .ok c → c ≠ 0 → mainQ = .error e →
      query_vector_db countR mainQ convQ user_id visitor_id include_conversation
        = ResultSet.empty)
    ∧ ResultSet.empty.documents = [] ∧ ResultSet.empty.metadatas = []
    ∧ ResultSet.empty.distances = [] := by
  refine ⟨?_, ?_, ?_, ?_, rfl, rfl, rfl⟩
  · intro e he
    simp [query_vector_db, he]
  · cases h : query_vector_db_core countR mainQ convQ user_id visitor_id include_conversation with
    | error e => left; simp [query_vector_db, h]
    | ok rs => right; simp [query_vector_db, h]
  · intro e he
    subst he
    simp [query_vector_db, query_vector_db_core]
  · intro e c hc hc0 hm
    subst hc; subst hm
    simp [query_vector_db, query_vector_db_core, hc0]

/-- Witness for C7: a failing corpus count yields the empty result set. -/
theorem query_vector_db_never_raises_witness :
    query_vector_db (.error .serviceError) (.ok ⟨[], [], []⟩) (.ok ⟨[], [], []⟩)
      (some "u1") (some "v1") true = ResultSet.empty :=
  (query_vector_db_never_raises (.error .serviceError) (.ok ⟨[], [], []⟩)
    (.ok ⟨[], [], []⟩) (some "u1") (some "v1") true).2.2.1 .serviceError rfl

theorem alignedResp_headAligned (r : QueryResponse) (h : AlignedResp r) : HeadAligned r := by
  obtain ⟨h1, h2⟩ := h
  have h1h := congrArg List.head? h1
  have h2h := congrArg List.head? h2
  rw [List.head?_map, List.head?_map] at h1h
  rw [List.head?_map, List.head?_map] at h2h
  have h1l := congrArg List.length h1
  have h2l := congrArg List.length h2
  rw [List.length_map, List.length_map] at h1l
  rw [List.length_map, List.length_map] at h2l
  refine ⟨?_, ?_, ?_, ?_⟩
  · have : r.documents.length = 0 ↔ r.metadatas.length = 0 := by omega
    simpa [List.length_eq_zero] using this
  · have : r.documents.length = 0 ↔ r.distances.length = 0 := by omega
    simpa [List.length_eq_zero] using this
  · cases hd : r.documents with
    | nil =>
      have hm : r.metadatas = [] := by
        rw [← List.length_eq_zero]
        rw [hd] at h1l
        simpa using h1l.symm
      simp [hd, hm]
    | cons a as =>
      cases hm : r.metadatas with
      | nil => rw [hd, hm] at h1h; simp at h1h
      | cons b bs => rw [hd, hm] at h1h; simp at h1h; simp [hd, hm, h1h]
  · cases hd : r.documents with
    | nil =>
      have hm : r.distances = [] := by
        rw [← List.length_eq_zero]
        rw [hd] at h2l
        simpa using h2l.symm
      simp [hd, hm]
    | cons a as =>
      cases hm : r.distances with
      | nil => rw [hd, hm] at h2h; simp at h2h
      | cons b bs => rw [hd, hm] at h2h; simp at h2h; simp [hd, hm, h2h]

theorem convLoop_headAligned (conv : QueryResponse) :
    ∀ (docs : List String) (i : Nat) (res : QueryResponse), HeadAligned res →
      i + docs.length ≤ (conv.metadatas.headD []).length →
      i + docs.length ≤ (conv.distances.headD []).length →
      HeadAligned (convLoop conv i docs res) := by
  intro docs
  induction docs with
  | nil =>
    intro i res h _ _
    simpa [convLoop] using h
  | cons doc rest ih =>
    intro i res h hm hs
    obtain ⟨rd, rm, rsd⟩ := res
    obtain ⟨hiff1, hiff2, hl1, hl2⟩ := h
    cases rd with
    | nil => exact ⟨hiff1, hiff2, hl1, hl2⟩
    | cons d0 dtl =>
      cases rm with
      | nil => simp [HeadAligned] at hiff1
      | cons m0 mtl =>
        cases rsd with
        | nil => simp [HeadAligned] at hiff2
        | cons s0 stl =>
          simp only [List.headD_eq_head?_getD, List.head?_cons, Option.getD_some] at hl1 hl2
          have him : i < (conv.metadatas.headD []).length := by
            simp only [List.length_cons] at hm
            omega
          have his : i < (conv.distances.headD []).length := by
            simp only [List.length_cons] at hs
            omega
          have hgm : (conv.metadatas.headD []).get? i
              = some ((conv.metadatas.headD []).get ⟨i, him⟩) := by
            simp [List.get?_eq_getElem?]
          have hgs : (conv.distances.headD []).get? i
              = some ((conv.distances.headD []).get ⟨i, his⟩) := by
            simp [List.get?_eq_getElem?]
          simp only [convLoop, hgm, hgs]
          apply ih
          · refine ⟨by simp, by simp, ?_, ?_⟩ <;> simp <;> omega
          · simp only [List.length_cons] at hm; omega
          · simp only [List.length_cons] at hs; omega

theorem convAppend_headAligned (res : QueryResponse) (convQ : Except PyErr QueryResponse)
    (h : HeadAligned res) (hconv : ∀ c, convQ = .ok c → AlignedResp c) :
    HeadAligned (convAppend res convQ) := by
  cases convQ with
  | error e => simpa [convAppend] using h
  | ok conv =>
    have hca : HeadAligned conv := alignedResp_headAligned conv (hconv conv rfl)
    cases hcd : conv.documents with
    | nil => simpa [convAppend, hcd] using h
    | cons convDocs0 tl =>
      by_cases hlen : convDocs0.length > 0
      · simp only [convAppend, hcd, hlen, if_true]
        apply convLoop_headAligned conv convDocs0 0 res h
        · have := hca.2.2.1
          rw [hcd] at this
          simp only [List.headD_eq_head?_getD] at this ⊢
          simp at this
          omega
        · have := hca.2.2.2
          rw [hcd] at this
          simp only [List.headD_eq_head?_getD] at this ⊢
          simp at this
          omega
      · simp only [convAppend, hcd, hlen, if_false]
        exact h

theorem extractAndFilter_ok_lengths :
    ∀ (results : QueryResponse) (user_id : Option String), HeadAligned results →
      ∀ out, extractAndFilter results user_id = .ok out →
        out.documents.length = out.metadatas.length
        ∧ out.distances.length = out.metadatas.length := by
  intro ⟨rd, rm, rsd⟩ user_id h out hout
  cases rd with
  | nil => simp [extractAndFilter] at hout
  | cons d0 dtl =>
    cases rm with
    | nil => obtain ⟨hiff1, _, _, _⟩ := h; simp [HeadAligned] at hiff1
    | cons m0 mtl =>
      cases rsd with
      | nil => obtain ⟨_, hiff2, _, _⟩ := h; simp [HeadAligned] at hiff2
      | cons s0 stl =>
        obtain ⟨_, _, hl1, hl2⟩ := h
        simp only [List.headD_eq_head?_getD, List.head?_cons, Option.getD_some] at hl1 hl2
        by_cases hu : truthyS user_id
        · have hfl := filter_loop_eq_filteredTriple (user_id.getD "") m0 d0 s0 0
            (by omega) (by omega)
          have hzip := filteredTriple_eq_zip_filter (user_id.getD "") m0 d0 s0
            (by omega) (by omega)
          simp only [List.drop_zero] at hfl
          rw [hzip] at hfl
          simp only [extractAndFilter, hu, if_true, hfl] at hout
          cases hout
          simp
        · simp only [extractAndFilter, hu, Bool.false_eq_true, if_false] at hout
          cases hout
          simp
          omega

/-- C9: on every path — empty corpus, caught error, owner-filtered and
unfiltered — `query_vector_db` returns a mapping with exactly the keys
`documents`, `metadatas` and `distances` whose three flat lists have equal
length, provided the search service's responses are index-aligned. -/
theorem query_vector_db_result_shape (countR : Except PyErr Nat)
    (mainQ : Except PyErr QueryResponse) (convQ : Except PyErr QueryResponse)
    (user_id : Option String) (visitor_id : Option String) (include_conversation : Bool)
    (hmain : ∀ r, mainQ = .ok r → AlignedResp r)
    (hconv : ∀ r, convQ = .ok r → AlignedResp r) :
    (query_vector_db countR mainQ convQ user_id visitor_id
        include_conversation).documents.length
      = (query_vector_db countR mainQ convQ user_id visitor_id
        include_conversation).metadatas.length
    ∧ (query_vector_db countR mainQ convQ user_id visitor_id
        include_conversation).distances.length
      = (query_vector_db countR mainQ convQ user_id visitor_id
        include_conversation).metadatas.length
    ∧ pyKeys (ResultSet.toPy (query_vector_db countR mainQ convQ user_id visitor_id
        include_conversation))
      = ["documents", "metadatas", "distances"] := by
  cases countR with
  | error e =>
    exact ⟨rfl, rfl, rfl⟩
  | ok c =>
    by_cases hc : c = 0
    · subst hc
      exact ⟨rfl, rfl, rfl⟩
    · cases mainQ with
      | error e =>
        simp only [query_vector_db, query_vector_db_core, hc, if_false]
        exact ⟨rfl, rfl, rfl⟩
      | ok r =>
        have hha : HeadAligned
            (if truthyS visitor_id && include_conversation then convAppend r convQ
             else r) := by
          by_cases hcond : (truthyS visitor_id && include_conversation) = true
          · rw [if_pos hcond]
            exact convAppend_headAligned r convQ
              (alignedResp_headAligned r (hmain r rfl)) hconv
          · rw [if_neg hcond]
            exact alignedResp_headAligned r (hmain r rfl)
        have hq : query_vector_db (.ok c) (.ok r) convQ user_id visitor_id
            include_conversation
            = match extractAndFilter
                (if truthyS visitor_id && include_conversation then convAppend r convQ
                 else r) user_id with
              | .ok out => out
              | .error _ => ResultSet.empty := by
          simp only [query_vector_db, query_vector_db_core, hc, if_false]
        rw [hq]
        cases hef : extractAndFilter
            (if truthyS visitor_id && include_conversation then convAppend r convQ
             else r) user_id with
        | error e => exact ⟨rfl, rfl, rfl⟩
        | ok out =>
          have hlen := extractAndFilter_ok_lengths _ user_id hha out hef
          exact ⟨hlen.1, hlen.2, rfl⟩

/-- Witness for C9 at a concrete aligned service response. -/
theorem query_vector_db_result_shape_witness :
    (query_vector_db (.ok 1)
        (.ok ⟨[["d"]], [[{ subcategory := some "bio" }]], [[2]]⟩)
        (.ok ⟨[], [], []⟩) none none true).documents.length
      = (query_vector_db (.ok 1)
        (.ok ⟨[["d"]], [[{ subcategory := some "bio" }]], [[2]]⟩)
        (.ok ⟨[], [], []⟩) none none true).metadatas.length :=
  (query_vector_db_result_shape (.ok 1)
    (.ok ⟨[["d"]], [[{ subcategory := some "bio" }]], [[2]]⟩)
    (.ok ⟨[], [], []⟩) none none true
    (fun r hr => by cases hr; exact ⟨rfl, rfl⟩)
    (fun r hr => by cases hr; exact ⟨rfl, rfl⟩)).1

theorem projectDocs_meta (jsonHtml : String → Option (Option String))
    (uid : Option String) (p : ProjectRec) :
    ∀ d ∈ projectDocs jsonHtml uid p,
      d.meta.category = some "project" ∧ d.meta.user_id = uid := by
  intro d hd
  simp only [projectDocs] at hd
  rcases List.mem_append.mp hd with h | h
  · rcases List.mem_append.mp h with h | h
    · rcases List.mem_append.mp h with h | h
      · split at h
        · simp at h; subst h; exact ⟨rfl, rfl⟩
        · simp at h
      · split at h
        · simp at h; subst h; exact ⟨rfl, rfl⟩
        · simp at h
    · split at h
      · simp at h; subst h; exact ⟨rfl, rfl⟩
      · simp at h
  · split at h
    · split at h
      · obtain ⟨pr, _, rfl⟩ := List.mem_map.mp h
        exact ⟨rfl, rfl⟩
      · simp at h; subst h; exact ⟨rfl, rfl⟩
    · simp at h

theorem newProjectDocs_meta (jsonHtml : String → Option (Option String))
    (uid : Option String) (ps : List ProjectRec) :
    ∀ d ∈ newProjectDocs jsonHtml uid ps,
      d.meta.category = some "project" ∧ d.meta.user_id = uid := by
  intro d hd
  simp only [newProjectDocs, List.mem_flatMap] at hd
  obtain ⟨p, _, hp⟩ := hd
  exact projectDocs_meta jsonHtml uid p d hp

theorem profileDocs_meta (p : ProfileData) (uid : String) :
    ∀ d ∈ profileDocs p uid, d.meta.category = some "profile" := by
  intro d hd
  simp only [profileDocs] at hd
  rcases List.mem_append.mp hd with h | h
  case _ =>
    rcases List.mem_append.mp h with h | h
    case _ =>
      rcases List.mem_append.mp h with h | h
      case _ =>
        rcases List.mem_append.mp h with h | h
        case _ =>
          rcases List.mem_append.mp h with h | h
          case _ =>
            rcases List.mem_append.mp h with h | h
            all_goals split at h
            all_goals simp at h
            all_goals subst h
            all_goals rfl
          case _ =>
            split at h
            · simp at h; subst h; rfl
            · simp at h
        case _ =>
          split at h
          · simp at h; subst h; rfl
          · simp at h
      case _ =>
        split at h
        · simp at h; subst h; rfl
        · simp at h
    case _ =>
      split at h
      · simp at h; subst h; rfl
      · simp at h
  case _ =>
    split at h
    · simp at h; subst h; rfl
    · simp at h

/-- C6 (amended): a project-ingestion call with a non-empty list deletes the
prior project documents of EVERY owner, not only the given owner's — after
the call no project document with a different owner remains — while
documents of other categories are preserved. -/
theorem project_ingestion_clears_all_owners (jsonHtml : String → Option (Option String))
    (corpus : List Doc) (projects_list : List ProjectRec) (user_id : Option String)
    (hne : projects_list ≠ []) :
    (add_projects_to_vector_db jsonHtml corpus projects_list user_id).1 = true
    ∧ (add_projects_to_vector_db jsonHtml corpus projects_list user_id).2.filter
        (fun d => d.meta.category == some "project" && !(d.meta.user_id == user_id)) = []
    ∧ ∀ d ∈ corpus, d.meta.category ≠ some "project" →
        d ∈ (add_projects_to_vector_db jsonHtml corpus projects_list user_id).2 := by
  have hne' : projects_list.isEmpty = false := by
    cases projects_list with
    | nil => simp at hne
    | cons a as => rfl
  refine ⟨?_, ?_, ?_⟩
  · simp [add_projects_to_vector_db, hne']
  · simp only [add_projects_to_vector_db, hne', Bool.false_eq_true, if_false,
      List.filter_append, List.filter_filter]
    rw [List.append_eq_nil]
    constructor
    · rw [List.filter_eq_nil_iff]
      intro d _
      by_cases hc : (d.meta.category == some "project") = true
      · simp [bne, hc]
      · simp [bne, hc]
    · rw [List.filter_eq_nil_iff]
      intro d hd
      have := (newProjectDocs_meta jsonHtml user_id projects_list d hd).2
      simp [this]
  · intro d hd hcat
    simp only [add_projects_to_vector_db, hne', Bool.false_eq_true, if_false,
      List.mem_append, List.mem_filter]
    left
    exact ⟨hd, by simpa using hcat⟩

/-- Witness for C6's amended statement at a concrete call. -/
theorem project_ingestion_clears_all_owners_witness :
    (add_projects_to_vector_db (fun _ => none)
        [⟨"project_title_p9_u2", "T2",
          { category := some "project", subcategory := some "title",
            project_id := some "p9", project_category := some "",
            user_id := some "u2" }⟩]
        [{ id := some "p1", title := some "T1" }] (some "u1")).2.filter
      (fun d => d.meta.category == some "project" && !(d.meta.user_id == some "u1")) = [] :=
  (project_ingestion_clears_all_owners (fun _ => none)
    [⟨"project_title_p9_u2", "T2",
      { category := some "project", subcategory := some "title",
        project_id := some "p9", project_category := some "",
        user_id := some "u2" }⟩]
    [{ id := some "p1", title := some "T1" }] (some "u1") (by simp)).2.1

/-- Counterexample to C6 as stated: another owner's project document (owner
`u2`) is present before a call ingesting projects for owner `u1`, and is
gone afterwards — the call did not leave other owners' project documents
unchanged. -/
theorem project_ingestion_clears_all_owners_cex :
    (⟨"project_title_p9_u2", "T2",
      { category := some "project", subcategory := some "title",
        project_id := some "p9", project_category := some "",
        user_id := some "u2" }⟩ : Doc) ∈
      [(⟨"project_title_p9_u2", "T2",
        { category := some "project", subcategory := some "title",
          project_id := some "p9", project_category := some "",
          user_id := some "u2" }⟩ : Doc)]
    ∧ (⟨"project_title_p9_u2", "T2",
      { category := some "project", subcategory := some "title",
        project_id := some "p9", project_category := some "",
        user_id := some "u2" }⟩ : Doc) ∉
      (add_projects_to_vector_db (fun _ => none)
        [⟨"project_title_p9_u2", "T2",
          { category := some "project", subcategory := some "title",
            project_id := some "p9", project_category := some "",
            user_id := some "u2" }⟩]
        [{ id := some "p1", title := some "T1" }] (some "u1")).2 := by
  constructor
  · simp
  · decide

/-- C10: an empty (or missing) project list makes `add_projects_to_vector_db`
return `True` with the corpus entirely unchanged — no deletion happens — and
consequently re-ingesting a profile whose `project_list` has become empty
leaves the corpus's project documents (the stale earlier generation) exactly
as they were. -/
theorem empty_project_list_keeps_corpus (jsonHtml : String → Option (Option String))
    (corpus : List Doc) (user_id : Option String) (profile_data : ProfileData)
    (hpl : profile_data.project_list = []) :
    add_projects_to_vector_db jsonHtml corpus [] user_id = (true, corpus)
    ∧ (add_profile_to_vector_db jsonHtml corpus profile_data user_id).2.filter
        (fun d => d.meta.category == some "project")
      = corpus.filter (fun d => d.meta.category == some "project") := by
  constructor
  · simp [add_projects_to_vector_db]
  · simp only [add_profile_to_vector_db, hpl, add_projects_to_vector_db,
      List.isEmpty_nil, if_true, List.filter_append, List.filter_filter]
    have h1 : corpus.filter
        (fun d => (d.meta.category == some "project")
          && !(d.meta.category == some "profile"
               && d.meta.user_id == some (if truthyS user_id then user_id.getD ""
                  else if truthyS profile_data.user_id then profile_data.user_id.getD ""
                  else "default")))
        = corpus.filter (fun d => d.meta.category == some "project") := by
      apply List.filter_congr
      intro d _
      by_cases hc : (d.meta.category == some "project") = true
      · have hp : (d.meta.category == some "profile") = false := by
          have := beq_iff_eq.mp hc
          simp [this]
        simp [hc, hp]
      · simp [hc]
    have h2 : (profileDocs profile_data
        (if truthyS user_id then user_id.getD ""
         else if truthyS profile_data.user_id then profile_data.user_id.getD ""
         else "default")).filter (fun d => d.meta.category == some "project") = [] := by
      rw [List.filter_eq_nil_iff]
      intro d hd
      have := profileDocs_meta profile_data _ d hd
      simp [this]
    rw [h1, h2, List.append_nil]

/-- Witness for C10 at a concrete corpus holding a stale project document
and a profile whose project list is empty. -/
theorem empty_project_list_keeps_corpus_witness :
    add_projects_to_vector_db (fun _ => none)
      [⟨"project_title_p1_u1", "T1",
        { category := some "project", subcategory := some "title",
          project_id := some "p1", project_category := some "",
          user_id := some "u1" }⟩] [] (some "u1")
      = (true,
        [⟨"project_title_p1_u1", "T1",
          { category := some "project", subcategory := some "title",
            project_id := some "p1", project_category := some "",
            user_id := some "u1" }⟩]) :=
  (empty_project_list_keeps_corpus (fun _ => none)
    [⟨"project_title_p1_u1", "T1",
      { category := some "project", subcategory := some "title",
        project_id := some "p1", project_category := some "",
        user_id := some "u1" }⟩] (some "u1") { name := some "Ada" } rfl).1

/-- C1 (code bug): `query_vector_db` returns FLAT result lists, but
`generate_ai_response` consumes the nested batched shape
(`search_results["documents"][0]`, `search_results["metadatas"][0][i]`).
Passing the retriever's output with at least one document therefore iterates
the first document's characters and integer-subscripts the first metadata
dict, raising `KeyError` instead of rendering one `"SUBCATEGORY: text"` line
per document; only the empty-result half of the claim (the fixed
placeholder) holds. -/
theorem retriever_output_breaks_context_assembly :
    buildContext (ResultSet.toPy
      ⟨["I love building things"],
       [{ category := some "profile", subcategory := some "bio", user_id := some "u1" }],
       [0]⟩) = .error .keyError
    ∧ buildContext (ResultSet.toPy ResultSet.empty) = .ok noInfoPlaceholder := by
  exact ⟨rfl, rfl⟩

/-- Counterexample to C3 as stated: the token extracted from the bio
`"I am Grace, a pioneer"` is `"Grace,"` — the comma is part of the
space-delimited token — not `"Grace"`. -/
theorem persona_name_grace_comma_cex :
    resolveName (some { bio := some "I am Grace, a pioneer" }) = "Grace,"
    ∧ "Grace," ≠ "Grace" := by
  exact ⟨by decide, by decide⟩

/-- C3 (amended): persona-name resolution prefers the trimmed `name` field;
for a profile with only bio `"I am Grace, a pioneer"` it resolves to exactly
`"Grace,"` (the space-delimited token right after `"I am "`, trailing comma
included, accepted for being longer than 2 characters); and a bio lacking
the substring `"I am "` resolves to the literal `"the person"`. -/
theorem persona_name_resolution (p : ProfileData) (b : String)
    (hname : truthyS p.name = true) (htrim : strStrip (p.name.getD "") ≠ "")
    (hnob : (strSplit "I am " b).length ≤ 1) :
    resolveName (some p) = strStrip (p.name.getD "")
    ∧ resolveName (some { bio := some "I am Grace, a pioneer" }) = "Grace,"
    ∧ resolveName (some { bio := some b }) = "the person" := by
  refine ⟨?_, by decide, ?_⟩
  · have ht : (strStrip (p.name.getD "") != "") = true := by
      simpa [bne] using htrim
    simp [resolveName, hname, ht, htrim]
  · have hnb : ¬ 1 < (strSplit "I am " b).length := by omega
    by_cases hb : b = ""
    · simp [resolveName, truthyS, hb]
    · simp [resolveName, truthyS, hb, hnb]

/-- Witness for C3's amended statement. -/
theorem persona_name_resolution_witness :
    resolveName (some { name := some " Ada " }) = strStrip " Ada "
    ∧ resolveName (some { bio := some "hello" }) = "the person" :=
  ⟨(persona_name_resolution { name := some " Ada " } "hello" (by decide) (by decide)
      (by decide)).1,
   (persona_name_resolution { name := some " Ada " } "hello" (by decide) (by decide)
      (by decide)).2.2⟩

/-- Counterexample to C4 as stated: with empty search results and an
entirely absent profile, the assembled prompt does contain the placeholder,
but the interpolated profile block is the EMPTY string — not a non-empty
block of seven `"Not provided"` lines. -/
theorem absent_profile_block_empty_cex :
    profileContext none = ""
    ∧ assembleSystemPrompt (ResultSet.toPy ResultSet.empty) none none
      = .ok (sysPromptPre ++ "the person" ++ sysPromptAfterName ++ "" ++ "\n\n" ++ ""
        ++ sysPromptBeforeContext ++ noInfoPlaceholder ++ sysPromptPost) := by
  exact ⟨rfl, rfl⟩

/-- C4 (amended): with empty search results the fixed placeholder is
substituted; an entirely absent profile record yields an empty profile
block, while a present profile record with none of the seven fields yields
the non-empty all-`"Not provided"` block. -/
theorem context_assembly_empty_inputs :
    buildContext (ResultSet.toPy ResultSet.empty) = .ok noInfoPlaceholder
    ∧ profileContext none = ""
    ∧ profileContext (some {})
      = "\nNAME: Not provided\nLOCATION: Not provided\nBIO: Not provided\nSKILLS: Not provided\nEXPERIENCE: Not provided\nPROJECTS: Not provided\nINTERESTS: Not provided\n        "
    ∧ profileContext (some {}) ≠ "" := by
  refine ⟨rfl, rfl, rfl, ?_⟩
  decide

/-- C8 (code bug): in the openai v1 hierarchy `RateLimitError` and
`APIConnectionError` subclass `APIError`, and Python tries `except` clauses
in source order, so the first clause (`except openai.APIError`) catches
every API-error category: a rate-limit failure is caught without raising
but returns the API-ERROR apology — not the designated rate-limit apology
the code's own (unreachable) rate-limit handler defines — and a connection
failure likewise; a failure can only ever produce the API-error or the
generic apology, both non-empty, while a successful call returns the
completion text verbatim (possibly empty). -/
theorem rate_limit_failure_gets_api_error_apology :
    generate_ai_response (ResultSet.toPy ResultSet.empty) none none
        (.error .rateLimitError) = .ok apologyApiError
    ∧ apologyApiError ≠ apologyRateLimit
    ∧ responseOfOutcome (.error .rateLimitError) = apologyApiError
    ∧ responseOfOutcome (.error .apiConnectionError) = apologyApiError
    ∧ (∀ e, responseOfOutcome (.error e) = apologyApiError
        ∨ responseOfOutcome (.error e) = apologyGeneric)
    ∧ (∀ e, responseOfOutcome (.error e) ≠ apologyRateLimit)
    ∧ (∀ e, responseOfOutcome (.error e) ≠ apologyConnectionError)
    ∧ (∀ e, responseOfOutcome (.error e) ≠ "")
    ∧ (∀ s, responseOfOutcome (.ok s) = s)
    ∧ generate_ai_response (ResultSet.toPy ResultSet.empty) none none (.ok "")
        = .ok "" := by
  refine ⟨rfl, by decide, rfl, rfl, ?_, ?_, ?_, ?_, fun s => rfl, rfl⟩
  · intro e
    cases e
    · exact Or.inl rfl
    · exact Or.inl rfl
    · exact Or.inl rfl
    · exact Or.inr rfl
  · intro e
    cases e <;> decide
  · intro e
    cases e <;> decide
  · intro e
    cases e <;> decide
